import Mathlib

/-!
Shallow embedding of the yb::util wait-state core (wait_state.h / wait_state.cc):
metadata and aux-info records with fill-in-the-blanks merge, conversion to and
from the external wire message, the wait-state container together with the
thread-local current pointer, and the two scoped guards.  Machine integers are
modelled as Nat (uint16/uint32/uint64 values) and Int (int64), with explicit
reduction modulo 2^w exactly where the C++ performs an overflowing operation or
a narrowing cast.
-/

namespace YbUtil

/-- Wait-state codes are an open-ended enumeration backed by uint32 (the header
declares only the constant Unused = 0; the concrete codes of each component are
external, opaque constants).  We model a code as its underlying uint32 value. -/
abbrev WaitStateCode := Nat

/-- AUHMetadata: request/session correlation identifiers and client origin.
Fields default to their C++ zero initializers (empty vectors and 0). -/
structure AUHMetadata where
  top_level_request_id : List Nat := []
  top_level_node_id : List Nat := []
  query_id : Int := 0
  current_request_id : Int := 0
  client_node_host : Nat := 0
  client_node_port : Nat := 0
deriving Repr, DecidableEq

/-- AUHAuxInfo: resource identifiers and the method name. -/
structure AUHAuxInfo where
  tablet_id : String := ""
  table_id : String := ""
  method : String := ""
deriving Repr, DecidableEq

/-- AUHMetadata::UpdateFrom: each field of the target is overwritten exactly
when the corresponding field of the source is non-empty / non-zero. -/
def AUHMetadata.UpdateFrom (a other : AUHMetadata) : AUHMetadata where
  top_level_request_id :=
    if other.top_level_request_id.isEmpty then a.top_level_request_id
    else other.top_level_request_id
  top_level_node_id :=
    if other.top_level_node_id.isEmpty then a.top_level_node_id
    else other.top_level_node_id
  query_id := if other.query_id = 0 then a.query_id else other.query_id
  current_request_id :=
    if other.current_request_id = 0 then a.current_request_id
    else other.current_request_id
  client_node_host :=
    if other.client_node_host = 0 then a.client_node_host
    else other.client_node_host
  client_node_port :=
    if other.client_node_port = 0 then a.client_node_port
    else other.client_node_port

/-- AUHAuxInfo::UpdateFrom: same fill-in-the-blanks law over the three string
fields, with the empty string meaning unset. -/
def AUHAuxInfo.UpdateFrom (a other : AUHAuxInfo) : AUHAuxInfo where
  tablet_id := if other.tablet_id.isEmpty then a.tablet_id else other.tablet_id
  table_id := if other.table_id.isEmpty then a.table_id else other.table_id
  method := if other.method.isEmpty then a.method else other.method

/-- Modelled from the spec: the external wire message for metadata.  The
protobuf message type itself is not part of these sources (the conversion
routines are templates over it), so it is modelled from the spec's description
of the wire boundary: repeated uint64 fields for the two id pairs, and scalar
fields that are either absent or carry a written value.  Per the spec the
boundary treats a field holding its zero value as unset, so the presence
accessors below report a field as set exactly when its value is non-zero /
non-empty. -/
structure AUHMetadataPB where
  top_level_request_id : List Nat := []
  top_level_node_id : List Nat := []
  query_id : Option Int := none
  current_request_id : Option Int := none
  client_node_host : Option Nat := none
  client_node_port : Option Nat := none
deriving Repr, DecidableEq

/-- Modelled from the spec: the nested aux_info wire message with its three
string fields; absent fields read back as the empty string. -/
structure AUHAuxInfoPB where
  tablet_id : Option String := none
  table_id : Option String := none
  method : Option String := none
deriving Repr, DecidableEq

/-- Getter of a scalar wire field: an absent field reads as its zero value. -/
def AUHMetadataPB.query_id_val (pb : AUHMetadataPB) : Int := pb.query_id.getD 0

def AUHMetadataPB.current_request_id_val (pb : AUHMetadataPB) : Int :=
  pb.current_request_id.getD 0

def AUHMetadataPB.client_node_host_val (pb : AUHMetadataPB) : Nat :=
  pb.client_node_host.getD 0

def AUHMetadataPB.client_node_port_val (pb : AUHMetadataPB) : Nat :=
  pb.client_node_port.getD 0

def AUHAuxInfoPB.tablet_id_val (pb : AUHAuxInfoPB) : String := pb.tablet_id.getD ""

def AUHAuxInfoPB.table_id_val (pb : AUHAuxInfoPB) : String := pb.table_id.getD ""

def AUHAuxInfoPB.method_val (pb : AUHAuxInfoPB) : String := pb.method.getD ""

/-- AUHMetadata::ToPB: each id pair is written only when it has exactly two
elements; each scalar is written only when non-zero. -/
def AUHMetadata.ToPB (m : AUHMetadata) (pb : AUHMetadataPB) : AUHMetadataPB :=
  let pb := if m.top_level_request_id.length = 2 then
      { pb with top_level_request_id := pb.top_level_request_id ++
          [m.top_level_request_id.getD 0 0, m.top_level_request_id.getD 1 0] }
    else pb
  let pb := if m.top_level_node_id.length = 2 then
      { pb with top_level_node_id := pb.top_level_node_id ++
          [m.top_level_node_id.getD 0 0, m.top_level_node_id.getD 1 0] }
    else pb
  let pb := if m.query_id = 0 then pb else { pb with query_id := some m.query_id }
  let pb := if m.current_request_id = 0 then pb
    else { pb with current_request_id := some m.current_request_id }
  let pb := if m.client_node_host = 0 then pb
    else { pb with client_node_host := some m.client_node_host }
  let pb := if m.client_node_port = 0 then pb
    else { pb with client_node_port := some m.client_node_port }
  pb

/-- AUHMetadata::FromPB: copies the repeated fields and reads every scalar
through its getter (absent reads as zero); the port getter's value is narrowed
by the static_cast to uint16_t, modelled as reduction mod 2^16. -/
def AUHMetadata.FromPB (pb : AUHMetadataPB) : AUHMetadata where
  top_level_request_id := pb.top_level_request_id
  top_level_node_id := pb.top_level_node_id
  query_id := pb.query_id_val
  current_request_id := pb.current_request_id_val
  client_node_host := pb.client_node_host_val
  client_node_port := pb.client_node_port_val % 2 ^ 16

/-- AUHMetadata::UpdateFromPB: merges the wire message into the record; a field
is taken from the message exactly when it is set there (non-empty repeated
field, non-zero scalar), otherwise the existing value is kept.  The port is
narrowed by the static_cast to uint16_t. -/
def AUHMetadata.UpdateFromPB (m : AUHMetadata) (pb : AUHMetadataPB) : AUHMetadata :=
  let m := if pb.top_level_node_id.isEmpty then m
    else { m with top_level_node_id := pb.top_level_node_id }
  let m := if pb.top_level_request_id.isEmpty then m
    else { m with top_level_request_id := pb.top_level_request_id }
  let m := if pb.query_id_val = 0 then m else { m with query_id := pb.query_id_val }
  let m := if pb.client_node_host_val = 0 then m
    else { m with client_node_host := pb.client_node_host_val }
  let m := if pb.client_node_port_val = 0 then m
    else { m with client_node_port := pb.client_node_port_val % 2 ^ 16 }
  let m := if pb.current_request_id_val = 0 then m
    else { m with current_request_id := pb.current_request_id_val }
  m

/-- AUHAuxInfo::ToPB: writes all three string fields unconditionally (there is
no emptiness test in the source). -/
def AUHAuxInfo.ToPB (a : AUHAuxInfo) (_pb : AUHAuxInfoPB) : AUHAuxInfoPB where
  tablet_id := some a.tablet_id
  table_id := some a.table_id
  method := some a.method

/-- AUHAuxInfo::FromPB: reads the three string fields through the getters. -/
def AUHAuxInfo.FromPB (pb : AUHAuxInfoPB) : AUHAuxInfo where
  tablet_id := pb.tablet_id_val
  table_id := pb.table_id_val
  method := pb.method_val

/-- Model of std::stoi from its C++ standard semantics: skip leading
whitespace, accept an optional sign, then consume decimal digits.  If no digit
is consumed it throws std::invalid_argument; if the value does not fit in a
32-bit int it throws std::out_of_range; both are modelled as Except.error. -/
def stoiModel (s : String) : Except Unit Int :=
  let cs := s.toList.dropWhile (fun ch => ch.isWhitespace)
  let signAndRest : Int × List Char :=
    match cs with
    | '+' :: rest => (1, rest)
    | '-' :: rest => (-1, rest)
    | _ => (1, cs)
  let digits := signAndRest.2.takeWhile (fun ch => ch.isDigit)
  if digits.isEmpty then Except.error ()
  else
    let v : Int :=
      signAndRest.1 * (digits.foldl (fun acc ch => 10 * acc + (ch.toNat - 48)) 0 : Nat)
    if v < -(2 ^ 31) ∨ 2 ^ 31 - 1 < v then Except.error () else Except.ok v

/-- Parse a list of decimal digit characters as a Nat, none when empty or when
some character is not a digit. -/
def decNat (cs : List Char) : Option Nat :=
  if cs.isEmpty ∨ ¬ cs.all (fun ch => ch.isDigit) then none
  else some (cs.foldl (fun acc ch => 10 * acc + (ch.toNat - 48)) 0)

/-- Model of ntohl(inet_addr(s)) from the C standard semantics, as a total
function (inet_addr never throws): a dotted-quad a.b.c.d with each component a
decimal value at most 255 yields the 32-bit host-order integer
a*2^24 + b*2^16 + c*2^8 + d; anything else yields INADDR_NONE = 0xFFFFFFFF.
The address parser is external to this core (the spec treats it as a black
box), so only totality and some concrete values matter to the claims. -/
def inetAddrNtohlModel (s : String) : Nat :=
  match s.toList.splitOn '.' with
  | [a, b, c, d] =>
    match decNat a, decNat b, decNat c, decNat d with
    | some x, some y, some z, some w =>
      if x ≤ 255 ∧ y ≤ 255 ∧ z ≤ 255 ∧ w ≤ 255 then
        x * 2 ^ 24 + y * 2 ^ 16 + z * 2 ^ 8 + w
      else 4294967295
    | _, _, _, _ => 4294967295
  | _ => 4294967295

/-- The substring of the endpoint before the first colon:
endpoint.substr(0, colon_position), the whole string when there is no colon
(colon_position = npos). -/
def hostSub (e : String) : String :=
  (e.toList.takeWhile (fun ch => ch ≠ ':')).asString

/-- The substring of the endpoint after the first colon:
endpoint.substr(colon_position + 1).  When there is no colon, colon_position is
npos and npos + 1 wraps to 0, so the whole string is returned. -/
def portSub (e : String) : String :=
  match e.toList.dropWhile (fun ch => ch ≠ ':') with
  | [] => e
  | _ :: rest => rest.asString

/-- AUHMetadata::set_client_node_ip: zero both fields, split the endpoint at
the first colon, store ntohl(inet_addr(host part)) into client_node_host, then
store std::stoi(port part) cast to uint16_t into client_node_port.  The host
parse is total; std::stoi throws on a port substring with no leading numeric,
and the function does not catch, so the exception propagates (Except.error). -/
def AUHMetadata.set_client_node_ip (m : AUHMetadata) (endpoint : String) :
    Except Unit AUHMetadata :=
  let m := { m with client_node_host := 0, client_node_port := 0 }
  let m := { m with client_node_host := inetAddrNtohlModel (hostSub endpoint) }
  match stoiModel (portSub endpoint) with
  | Except.error e => Except.error e
  | Except.ok v => Except.ok { m with client_node_port := (v % 65536).toNat }

/-- WaitStateInfo: the shared container bundling the current status code with
the guarded metadata and aux info.  The debug-only history fields are compiled
out (TRACK_WAIT_HISTORY is not defined). -/
structure WaitStateRec where
  code : WaitStateCode := 0
  metadata : AUHMetadata := {}
  aux_info : AUHAuxInfo := {}
deriving Repr, DecidableEq

/-- A WaitStateInfoPtr is a shared pointer: either null or a reference to a
container, modelled as an index into the heap. -/
abbrev Ptr := Nat

abbrev WaitStateInfoPtr := Option Ptr

/-- The state visible to one thread: the heap of shared containers (a total
map from pointer values, so that any pointer dereferences to some container)
and the thread-local slot threadlocal_wait_state_. -/
structure World where
  heap : Ptr → WaitStateRec
  tls : WaitStateInfoPtr

/-- Pointwise heap update at one container. -/
def World.setHeap (w : World) (p : Ptr) (r : WaitStateRec) : World :=
  { w with heap := fun q => if q = p then r else w.heap q }

namespace WaitStateInfo

/-- WaitStateInfo::set_state: unconditionally overwrite the code field. -/
def set_state (p : Ptr) (c : WaitStateCode) (w : World) : World :=
  w.setHeap p { w.heap p with code := c }

/-- WaitStateInfo::get_state: read the code field. -/
def get_state (p : Ptr) (w : World) : WaitStateCode :=
  (w.heap p).code

/-- WaitStateInfo::CurrentWaitState: read the thread-local slot; the null
pointer is returned when no wait state is installed. -/
def CurrentWaitState (w : World) : WaitStateInfoPtr :=
  w.tls

/-- WaitStateInfo::SetCurrentWaitState: overwrite the thread-local slot. -/
def SetCurrentWaitState (ptr : WaitStateInfoPtr) (w : World) : World :=
  { w with tls := ptr }

/-- WaitStateInfo::set_top_level_request_id: store the pair
{x, x*x} into the metadata; the multiplication is uint64 arithmetic, hence
reduced mod 2^64. -/
def set_top_level_request_id (p : Ptr) (x : Nat) (w : World) : World :=
  let r := w.heap p
  w.setHeap p
    { r with metadata := { r.metadata with top_level_request_id := [x, x * x % 2 ^ 64] } }

/-- WaitStateInfo::set_query_id. -/
def set_query_id (p : Ptr) (q : Int) (w : World) : World :=
  let r := w.heap p
  w.setHeap p { r with metadata := { r.metadata with query_id := q } }

/-- WaitStateInfo::UpdateMetadata: fill-blanks merge into the container's
metadata. -/
def UpdateMetadata (p : Ptr) (meta : AUHMetadata) (w : World) : World :=
  let r := w.heap p
  w.setHeap p { r with metadata := r.metadata.UpdateFrom meta }

/-- WaitStateInfo::UpdateAuxInfo. -/
def UpdateAuxInfo (p : Ptr) (aux : AUHAuxInfo) (w : World) : World :=
  let r := w.heap p
  w.setHeap p { r with aux_info := r.aux_info.UpdateFrom aux }

/-- WaitStateInfo::UpdateMetadataFromPB: if the calling thread has a current
wait state, merge FromPB of the message into it; otherwise do nothing. -/
def UpdateMetadataFromPB (pb : AUHMetadataPB) (w : World) : World :=
  match CurrentWaitState w with
  | some p => UpdateMetadata p (AUHMetadata.FromPB pb) w
  | none => w

end WaitStateInfo

/-- The SET_WAIT_STATUS_TO macro: if the pointer is non-null, set its state. -/
def SET_WAIT_STATUS_TO (ptr : WaitStateInfoPtr) (c : WaitStateCode) (w : World) : World :=
  match ptr with
  | some p => WaitStateInfo.set_state p c w
  | none => w

/-- The SET_WAIT_STATUS macro: set the state on the calling thread's current
wait state, a no-op when none is installed. -/
def SET_WAIT_STATUS (c : WaitStateCode) (w : World) : World :=
  SET_WAIT_STATUS_TO (WaitStateInfo.CurrentWaitState w) c w

/-- ScopedWaitState: the adoption guard's only member is prev_state_. -/
structure ScopedWaitState where
  prev_state_ : WaitStateInfoPtr
deriving Repr, DecidableEq

/-- ScopedWaitState::ScopedWaitState(wait_state): capture the thread-local
slot into prev_state_ and install the given pointer (possibly null). -/
def ScopedWaitState.construct (wait_state : WaitStateInfoPtr) (w : World) :
    ScopedWaitState × World :=
  (⟨WaitStateInfo.CurrentWaitState w⟩, WaitStateInfo.SetCurrentWaitState wait_state w)

/-- ScopedWaitState::~ScopedWaitState: write prev_state_ back into the slot
unconditionally. -/
def ScopedWaitState.destruct (g : ScopedWaitState) (w : World) : World :=
  WaitStateInfo.SetCurrentWaitState g.prev_state_ w

/-- ScopedWaitStatus: target pointer, the code this guard set, and the saved
previous code. -/
structure ScopedWaitStatus where
  wait_state_ : WaitStateInfoPtr
  state_ : WaitStateCode
  prev_state_ : WaitStateCode
deriving Repr, DecidableEq

/-- ScopedWaitStatus::ScopedWaitStatus(wait_state, state): when the pointer is
non-null, save its current code into prev_state_ and set its code; when null,
prev_state_ is left uninitialized, modelled by the arbitrary junk value u, and
nothing else happens. -/
def ScopedWaitStatus.construct (wait_state : WaitStateInfoPtr) (state u : WaitStateCode)
    (w : World) : ScopedWaitStatus × World :=
  match wait_state with
  | some p =>
    (⟨some p, state, WaitStateInfo.get_state p w⟩, WaitStateInfo.set_state p state w)
  | none => (⟨none, state, u⟩, w)

/-- ScopedWaitStatus::ScopedWaitStatus(state): the one-argument form targets
the calling thread's current wait state. -/
def ScopedWaitStatus.constructCurrent (state u : WaitStateCode) (w : World) :
    ScopedWaitStatus × World :=
  ScopedWaitStatus.construct (WaitStateInfo.CurrentWaitState w) state u w

/-- ScopedWaitStatus::ResetToPrevStatus: when the pointer is non-null and the
container's code still equals the code this guard set, write prev_state_ back;
otherwise do nothing. -/
def ScopedWaitStatus.ResetToPrevStatus (g : ScopedWaitStatus) (w : World) : World :=
  match g.wait_state_ with
  | some p =>
    if WaitStateInfo.get_state p w = g.state_
    then WaitStateInfo.set_state p g.prev_state_ w
    else w
  | none => w

/-- ScopedWaitStatus::~ScopedWaitStatus: calls ResetToPrevStatus. -/
def ScopedWaitStatus.destruct (g : ScopedWaitStatus) (w : World) : World :=
  g.ResetToPrevStatus w

/-- A concrete world with default-constructed containers everywhere and no
current wait state, used to instantiate the universally quantified theorems. -/
def emptyWorld : World where
  heap := fun _ => {}
  tls := none

theorem get_state_set_state_same (p : Ptr) (c : WaitStateCode) (w : World) :
    WaitStateInfo.get_state p (WaitStateInfo.set_state p c w) = c := by
  simp [WaitStateInfo.get_state, WaitStateInfo.set_state, World.setHeap]

/-- The property of claim C1, stated for an arbitrary starting world w, an
arbitrary world w2 reached during the guard's lifetime, a target container p,
the code c the guard sets, the junk value u, and a foreign code s3. -/
def compareAndRestoreProp (w w2 : World) (p : Ptr) (c u s3 : WaitStateCode) : Prop :=
  (ScopedWaitStatus.construct (some p) c u w).1.prev_state_ = WaitStateInfo.get_state p w
  ∧ WaitStateInfo.get_state p (ScopedWaitStatus.construct (some p) c u w).2 = c
  ∧ ((ScopedWaitStatus.construct (some p) c u w).1.ResetToPrevStatus w2 =
      if WaitStateInfo.get_state p w2 = c
      then WaitStateInfo.set_state p (WaitStateInfo.get_state p w) w2
      else w2)
  ∧ ((ScopedWaitStatus.construct (some p) c u w).1.destruct
      (WaitStateInfo.set_state p s3 (ScopedWaitStatus.construct (some p) c u w).2)
      = WaitStateInfo.set_state p s3 (ScopedWaitStatus.construct (some p) c u w).2)
  ∧ WaitStateInfo.get_state p
      ((ScopedWaitStatus.construct (some p) c u w).1.destruct
        (WaitStateInfo.set_state p s3 (ScopedWaitStatus.construct (some p) c u w).2)) = s3

/-- C1: a ScopedWaitStatus guard on a non-null container saves the container's
current code as prev_state_ and sets the code to its new value; destruction or
ResetToPrevStatus restores prev_state_ exactly when the code still equals the
value the guard set and leaves the world untouched otherwise; in particular,
after the guard sets c and other code sets s3 directly, destruction leaves the
code at s3. -/
theorem scopedWaitStatus_compare_and_restore (w w2 : World) (p : Ptr)
    (c u s3 : WaitStateCode) (h : s3 ≠ c) : compareAndRestoreProp w w2 p c u s3 := by
  refine ⟨rfl, get_state_set_state_same p c w, rfl, ?_, ?_⟩ <;>
    simp [ScopedWaitStatus.construct, ScopedWaitStatus.destruct,
      ScopedWaitStatus.ResetToPrevStatus, get_state_set_state_same, h]

/-- C1 witness: the compare-and-restore property at a concrete world, target
container 0, set code 1, junk 7, foreign code 3. -/
theorem scopedWaitStatus_compare_and_restore_witness :
    compareAndRestoreProp emptyWorld emptyWorld 0 1 7 3 :=
  scopedWaitStatus_compare_and_restore emptyWorld emptyWorld 0 1 7 3 (by decide)

/-- The property of claim C2: adoption-guard capture, install, unconditional
restore from any intermediate world wmid, and the nested-guard scenario. -/
def adoptionRestoreProp (w wmid : World) (ptr : WaitStateInfoPtr) (c1 c2 : Ptr) : Prop :=
  (ScopedWaitState.construct ptr w).1.prev_state_ = WaitStateInfo.CurrentWaitState w
  ∧ WaitStateInfo.CurrentWaitState (ScopedWaitState.construct ptr w).2 = ptr
  ∧ WaitStateInfo.CurrentWaitState ((ScopedWaitState.construct ptr w).1.destruct wmid)
      = WaitStateInfo.CurrentWaitState w
  ∧ WaitStateInfo.CurrentWaitState
      ((ScopedWaitState.construct (some c2)
          (ScopedWaitState.construct (some c1) w).2).1.destruct
        (ScopedWaitState.construct (some c2)
          (ScopedWaitState.construct (some c1) w).2).2) = some c1
  ∧ WaitStateInfo.CurrentWaitState
      ((ScopedWaitState.construct (some c1) w).1.destruct
        ((ScopedWaitState.construct (some c2)
            (ScopedWaitState.construct (some c1) w).2).1.destruct
          (ScopedWaitState.construct (some c2)
            (ScopedWaitState.construct (some c1) w).2).2)) = none

/-- C2: a ScopedWaitState guard captures the thread-local slot into previous
and installs the given pointer; destruction writes previous back
unconditionally, whatever the slot holds at that time; with the slot initially
none, nesting guards for containers c1 then c2 and destructing inner then
outer restores the slot to c1 and then to none. -/
theorem scopedWaitState_unconditional_restore (w wmid : World) (ptr : WaitStateInfoPtr)
    (c1 c2 : Ptr) (h : WaitStateInfo.CurrentWaitState w = none) :
    adoptionRestoreProp w wmid ptr c1 c2 := by
  refine ⟨rfl, rfl, rfl, rfl, ?_⟩
  simp [ScopedWaitState.construct, ScopedWaitState.destruct,
    WaitStateInfo.CurrentWaitState, WaitStateInfo.SetCurrentWaitState] at h ⊢
  exact h

/-- C2 witness: the adoption-guard property at a concrete world with an empty
slot, installed pointer 9, and nested containers 1 and 2. -/
theorem scopedWaitState_unconditional_restore_witness :
    adoptionRestoreProp emptyWorld emptyWorld (some 9) 1 2 :=
  scopedWaitState_unconditional_restore emptyWorld emptyWorld (some 9) 1 2 rfl

/-- C3: the fill-in-the-blanks merge law: every field of A.UpdateFrom(B)
equals B's field when B's field is set (non-empty / non-zero) and A's prior
field otherwise, for all six metadata fields and the three aux-info string
fields. -/
theorem updateFrom_fill_blanks (a b : AUHMetadata) (x y : AUHAuxInfo) :
    ((a.UpdateFrom b).top_level_request_id =
      if b.top_level_request_id.isEmpty then a.top_level_request_id
      else b.top_level_request_id)
    ∧ ((a.UpdateFrom b).top_level_node_id =
      if b.top_level_node_id.isEmpty then a.top_level_node_id else b.top_level_node_id)
    ∧ ((a.UpdateFrom b).query_id = if b.query_id = 0 then a.query_id else b.query_id)
    ∧ ((a.UpdateFrom b).current_request_id =
      if b.current_request_id = 0 then a.current_request_id else b.current_request_id)
    ∧ ((a.UpdateFrom b).client_node_host =
      if b.client_node_host = 0 then a.client_node_host else b.client_node_host)
    ∧ ((a.UpdateFrom b).client_node_port =
      if b.client_node_port = 0 then a.client_node_port else b.client_node_port)
    ∧ ((x.UpdateFrom y).tablet_id =
      if y.tablet_id.isEmpty then x.tablet_id else y.tablet_id)
    ∧ ((x.UpdateFrom y).table_id = if y.table_id.isEmpty then x.table_id else y.table_id)
    ∧ ((x.UpdateFrom y).method = if y.method.isEmpty then x.method else y.method) :=
  ⟨rfl, rfl, rfl, rfl, rfl, rfl, rfl, rfl, rfl⟩

/-- C7: set_top_level_request_id stores the pair (x, x*x) in uint64 arithmetic
into the metadata's top_level_request_id; in particular the input 5 yields the
stored pair (5, 25). -/
theorem set_top_level_request_id_pair (w : World) (p : Ptr) (x : Nat) :
    ((WaitStateInfo.set_top_level_request_id p x w).heap p).metadata.top_level_request_id
      = [x, x * x % 2 ^ 64]
    ∧ ((WaitStateInfo.set_top_level_request_id p 5 w).heap p).metadata.top_level_request_id
      = [5, 25] := by
  constructor <;>
    simp [WaitStateInfo.set_top_level_request_id, World.setHeap]

/-- C10: a ScopedWaitStatus constructed with a null container reference leaves
the world untouched, holds only the junk value u in its uninitialized
prev_state_ field, and its ResetToPrevStatus and destructor leave any world
unchanged whatever u is (the uninitialized field is never read). -/
theorem empty_status_guard_inert (c u : WaitStateCode) (w w2 : World) :
    (ScopedWaitStatus.construct none c u w).2 = w
    ∧ (ScopedWaitStatus.construct none c u w).1.prev_state_ = u
    ∧ (ScopedWaitStatus.construct none c u w).1.ResetToPrevStatus w2 = w2
    ∧ (ScopedWaitStatus.construct none c u w).1.destruct w2 = w2 :=
  ⟨rfl, rfl, rfl, rfl⟩

/-- The property of claim C8: with no current wait state, CurrentWaitState is
the null pointer and every status-mutation helper is a silent no-op. -/
def noCurrentProp (w : World) (c u : WaitStateCode) : Prop :=
  WaitStateInfo.CurrentWaitState w = none
  ∧ SET_WAIT_STATUS c w = w
  ∧ SET_WAIT_STATUS_TO none c w = w
  ∧ (ScopedWaitStatus.constructCurrent c u w).2 = w
  ∧ (ScopedWaitStatus.construct none c u w).2 = w
  ∧ (ScopedWaitStatus.constructCurrent c u w).1.destruct w = w

/-- C8: when the calling thread has no current wait state, CurrentWaitState
returns the null pointer, and the SET_WAIT_STATUS macro path as well as a
ScopedWaitStatus constructed with code only or with a null reference change no
state and signal no error. -/
theorem no_current_wait_state_noops (w : World) (c u : WaitStateCode)
    (h : w.tls = none) : noCurrentProp w c u := by
  refine ⟨h, ?_, rfl, ?_, rfl, ?_⟩ <;>
    simp [SET_WAIT_STATUS, SET_WAIT_STATUS_TO, WaitStateInfo.CurrentWaitState,
      ScopedWaitStatus.constructCurrent, ScopedWaitStatus.construct,
      ScopedWaitStatus.destruct, ScopedWaitStatus.ResetToPrevStatus, h]

/-- C8 witness: the no-op property at a concrete world with an empty slot,
code 3 and junk 7. -/
theorem no_current_wait_state_noops_witness : noCurrentProp emptyWorld 3 7 :=
  no_current_wait_state_noops emptyWorld 3 7 rfl

theorem updateFromPB_proj (m : AUHMetadata) (pb : AUHMetadataPB) :
    (m.UpdateFromPB pb).top_level_node_id =
      (if pb.top_level_node_id.isEmpty then m.top_level_node_id
        else pb.top_level_node_id)
    ∧ (m.UpdateFromPB pb).top_level_request_id =
      (if pb.top_level_request_id.isEmpty then m.top_level_request_id
        else pb.top_level_request_id)
    ∧ (m.UpdateFromPB pb).query_id =
      (if pb.query_id_val = 0 then m.query_id else pb.query_id_val)
    ∧ (m.UpdateFromPB pb).client_node_host =
      (if pb.client_node_host_val = 0 then m.client_node_host
        else pb.client_node_host_val)
    ∧ (m.UpdateFromPB pb).client_node_port =
      (if pb.client_node_port_val = 0 then m.client_node_port
        else pb.client_node_port_val % 2 ^ 16)
    ∧ (m.UpdateFromPB pb).current_request_id =
      (if pb.current_request_id_val = 0 then m.current_request_id
        else pb.current_request_id_val) := by
  simp only [AUHMetadata.UpdateFromPB]
  split_ifs <;> simp_all

/-- The property of claim C4: on read-merge from the wire message, every
zero/empty incoming field leaves the existing value of that field unchanged,
both for AUHMetadata::UpdateFromPB directly and for
WaitStateInfo::UpdateMetadataFromPB applied to the thread's current wait
state p. -/
def updateFromPBPreserves (m : AUHMetadata) (pb : AUHMetadataPB) (w : World)
    (p : Ptr) : Prop :=
  (pb.top_level_node_id.isEmpty → (m.UpdateFromPB pb).top_level_node_id =
    m.top_level_node_id)
  ∧ (pb.top_level_request_id.isEmpty → (m.UpdateFromPB pb).top_level_request_id =
    m.top_level_request_id)
  ∧ (pb.query_id_val = 0 → (m.UpdateFromPB pb).query_id = m.query_id)
  ∧ (pb.client_node_host_val = 0 → (m.UpdateFromPB pb).client_node_host =
    m.client_node_host)
  ∧ (pb.client_node_port_val = 0 → (m.UpdateFromPB pb).client_node_port =
    m.client_node_port)
  ∧ (pb.current_request_id_val = 0 → (m.UpdateFromPB pb).current_request_id =
    m.current_request_id)
  ∧ (pb.top_level_node_id.isEmpty →
    ((WaitStateInfo.UpdateMetadataFromPB pb w).heap p).metadata.top_level_node_id =
      (w.heap p).metadata.top_level_node_id)
  ∧ (pb.top_level_request_id.isEmpty →
    ((WaitStateInfo.UpdateMetadataFromPB pb w).heap p).metadata.top_level_request_id =
      (w.heap p).metadata.top_level_request_id)
  ∧ (pb.query_id_val = 0 →
    ((WaitStateInfo.UpdateMetadataFromPB pb w).heap p).metadata.query_id =
      (w.heap p).metadata.query_id)
  ∧ (pb.client_node_host_val = 0 →
    ((WaitStateInfo.UpdateMetadataFromPB pb w).heap p).metadata.client_node_host =
      (w.heap p).metadata.client_node_host)
  ∧ (pb.client_node_port_val = 0 →
    ((WaitStateInfo.UpdateMetadataFromPB pb w).heap p).metadata.client_node_port =
      (w.heap p).metadata.client_node_port)
  ∧ (pb.current_request_id_val = 0 →
    ((WaitStateInfo.UpdateMetadataFromPB pb w).heap p).metadata.current_request_id =
      (w.heap p).metadata.current_request_id)

/-- C4: on read-merge from the wire message, for every starting metadata value
and every incoming message, any zero/empty incoming field leaves the existing
value of that field unchanged; this holds for AUHMetadata::UpdateFromPB and
for WaitStateInfo::UpdateMetadataFromPB applied to the thread's current wait
state. -/
theorem updateFromPB_preserves_unset (m : AUHMetadata) (pb : AUHMetadataPB)
    (w : World) (p : Ptr) (h : w.tls = some p) : updateFromPBPreserves m pb w p := by
  obtain ⟨e1, e2, e3, e4, e5, e6⟩ := updateFromPB_proj m pb
  refine ⟨?_, ?_, ?_, ?_, ?_, ?_, ?_, ?_, ?_, ?_, ?_, ?_⟩ <;> intro h' <;>
    simp [WaitStateInfo.UpdateMetadataFromPB, WaitStateInfo.CurrentWaitState,
      WaitStateInfo.UpdateMetadata, World.setHeap, AUHMetadata.UpdateFrom,
      AUHMetadata.FromPB, e1, e2, e3, e4, e5, e6, h, h']

/-- C4 witness: preservation at a concrete metadata, a message with all fields
unset, and a world whose current wait state is container 0. -/
theorem updateFromPB_preserves_unset_witness :
    updateFromPBPreserves { query_id := 42 } {}
      { heap := fun _ => {}, tls := some 0 } 0 :=
  updateFromPB_preserves_unset { query_id := 42 } {}
    { heap := fun _ => {}, tls := some 0 } 0 rfl

/-- C5 counterexample: AUHAuxInfo::ToPB writes the tablet_id field even when
it is the empty string (the source sets all three fields unconditionally), so
it is not the case that each empty string field is left unwritten. -/
theorem auxToPB_writes_empty_string :
    (AUHAuxInfo.ToPB { tablet_id := "", table_id := "", method := "" } {}).tablet_id
      ≠ none := by
  simp [AUHAuxInfo.ToPB]

theorem toPB_proj (m : AUHMetadata) (pb : AUHMetadataPB) :
    (m.ToPB pb).top_level_request_id =
      (if m.top_level_request_id.length = 2 then pb.top_level_request_id ++
        [m.top_level_request_id.getD 0 0, m.top_level_request_id.getD 1 0]
       else pb.top_level_request_id)
    ∧ (m.ToPB pb).top_level_node_id =
      (if m.top_level_node_id.length = 2 then pb.top_level_node_id ++
        [m.top_level_node_id.getD 0 0, m.top_level_node_id.getD 1 0]
       else pb.top_level_node_id)
    ∧ (m.ToPB pb).query_id = (if m.query_id = 0 then pb.query_id else some m.query_id)
    ∧ (m.ToPB pb).current_request_id =
      (if m.current_request_id = 0 then pb.current_request_id
       else some m.current_request_id)
    ∧ (m.ToPB pb).client_node_host =
      (if m.client_node_host = 0 then pb.client_node_host
       else some m.client_node_host)
    ∧ (m.ToPB pb).client_node_port =
      (if m.client_node_port = 0 then pb.client_node_port
       else some m.client_node_port) := by
  simp only [AUHMetadata.ToPB]
  split_ifs <;> simp_all

/-- The property of the amended claim C5: each zero scalar field and each id
pair not of length exactly 2 is left unwritten by AUHMetadata::ToPB, while
AUHAuxInfo::ToPB writes its three string fields unconditionally, empty or
not. -/
def toPBOmitsProp (m : AUHMetadata) (pb : AUHMetadataPB) (a : AUHAuxInfo)
    (qb : AUHAuxInfoPB) : Prop :=
  (m.top_level_request_id.length ≠ 2 →
    (m.ToPB pb).top_level_request_id = pb.top_level_request_id)
  ∧ (m.top_level_node_id.length ≠ 2 →
    (m.ToPB pb).top_level_node_id = pb.top_level_node_id)
  ∧ (m.query_id = 0 → (m.ToPB pb).query_id = pb.query_id)
  ∧ (m.current_request_id = 0 → (m.ToPB pb).current_request_id = pb.current_request_id)
  ∧ (m.client_node_host = 0 → (m.ToPB pb).client_node_host = pb.client_node_host)
  ∧ (m.client_node_port = 0 → (m.ToPB pb).client_node_port = pb.client_node_port)
  ∧ (a.ToPB qb).tablet_id = some a.tablet_id
  ∧ (a.ToPB qb).table_id = some a.table_id
  ∧ (a.ToPB qb).method = some a.method

/-- C5 amended: on conversion to the wire representation,
AUHMetadata::ToPB leaves each zero scalar field and each id pair not of length
exactly 2 unwritten; AUHAuxInfo::ToPB, however, writes each of its three
string fields unconditionally, including empty ones. -/
theorem toPB_omits_unset_metadata_fields (m : AUHMetadata) (pb : AUHMetadataPB)
    (a : AUHAuxInfo) (qb : AUHAuxInfoPB) : toPBOmitsProp m pb a qb := by
  obtain ⟨e1, e2, e3, e4, e5, e6⟩ := toPB_proj m pb
  refine ⟨?_, ?_, ?_, ?_, ?_, ?_, rfl, rfl, rfl⟩ <;> intro h' <;>
    simp [e1, e2, e3, e4, e5, e6, h']

/-- C5 amended witness: the omission property at a concrete zero-valued
metadata and a concrete aux record, against empty wire messages. -/
theorem toPB_omits_unset_metadata_fields_witness :
    toPBOmitsProp {} {} { tablet_id := "t" } {} :=
  toPB_omits_unset_metadata_fields {} {} { tablet_id := "t" } {}

/-- C6: for every fully-populated metadata/aux pair (both id pairs of length
exactly 2, all scalars non-zero and the port within uint16 range, all strings
non-empty), ToPB into an empty message followed by FromPB reproduces the
original values exactly; and a zero-valued metadata converts to the empty
message and back to a zero-valued metadata with all fields still unset. -/
theorem wire_round_trip (m : AUHMetadata) (a : AUHAuxInfo)
    (h1 : m.top_level_request_id.length = 2) (h2 : m.top_level_node_id.length = 2)
    (h3 : m.query_id ≠ 0) (h4 : m.current_request_id ≠ 0)
    (h5 : m.client_node_host ≠ 0) (h6 : m.client_node_port ≠ 0)
    (h7 : m.client_node_port < 2 ^ 16)
    (ha1 : ¬ a.tablet_id.isEmpty) (ha2 : ¬ a.table_id.isEmpty)
    (ha3 : ¬ a.method.isEmpty) :
    AUHMetadata.FromPB (m.ToPB {}) = m
    ∧ AUHAuxInfo.FromPB (a.ToPB {}) = a
    ∧ AUHMetadata.ToPB {} {} = ({} : AUHMetadataPB)
    ∧ AUHMetadata.FromPB (AUHMetadata.ToPB {} {}) = ({} : AUHMetadata) := by
  obtain ⟨r1, r2, hr⟩ := List.length_eq_two.mp h1
  obtain ⟨n1, n2, hn⟩ := List.length_eq_two.mp h2
  refine ⟨?_, ?_, by decide, by decide⟩
  · obtain ⟨tlri, tlni, qid, crid, host, port⟩ := m
    simp only at hr hn h3 h4 h5 h6 h7
    subst hr hn
    simp [AUHMetadata.ToPB, AUHMetadata.FromPB, AUHMetadataPB.query_id_val,
      AUHMetadataPB.current_request_id_val, AUHMetadataPB.client_node_host_val,
      AUHMetadataPB.client_node_port_val, h3, h4, h5, h6, Nat.mod_eq_of_lt h7]
    norm_num at h7
    exact h7
  · obtain ⟨t1, t2, t3⟩ := a
    simp [AUHAuxInfo.ToPB, AUHAuxInfo.FromPB, AUHAuxInfoPB.tablet_id_val,
      AUHAuxInfoPB.table_id_val, AUHAuxInfoPB.method_val]

/-- C6 witness: the round trip at a concrete fully-populated pair. -/
theorem wire_round_trip_witness :
    AUHMetadata.FromPB
      (AUHMetadata.ToPB
        { top_level_request_id := [1, 2], top_level_node_id := [3, 4],
          query_id := 5, current_request_id := 6,
          client_node_host := 7, client_node_port := 8 } {})
      = { top_level_request_id := [1, 2], top_level_node_id := [3, 4],
          query_id := 5, current_request_id := 6,
          client_node_host := 7, client_node_port := 8 }
    ∧ AUHAuxInfo.FromPB
      (AUHAuxInfo.ToPB { tablet_id := "t", table_id := "u", method := "m" } {})
      = { tablet_id := "t", table_id := "u", method := "m" }
    ∧ AUHMetadata.ToPB {} {} = ({} : AUHMetadataPB)
    ∧ AUHMetadata.FromPB (AUHMetadata.ToPB {} {}) = ({} : AUHMetadata) :=
  wire_round_trip
    { top_level_request_id := [1, 2], top_level_node_id := [3, 4],
      query_id := 5, current_request_id := 6,
      client_node_host := 7, client_node_port := 8 }
    { tablet_id := "t", table_id := "u", method := "m" }
    (by decide) (by decide) (by decide) (by decide) (by decide) (by decide)
    (by decide) (by decide) (by decide) (by decide)

/-- C9 counterexample: on the malformed endpoint "1.2.3.4:x" (non-numeric
port) set_client_node_ip does signal failure: std::stoi throws on the port
substring "x" and the exception propagates, so the call does not proceed to
store garbage host and port values. -/
theorem set_client_node_ip_raises_on_nonnumeric_port :
    AUHMetadata.set_client_node_ip {} "1.2.3.4:x" = Except.error () := by
  rfl

/-- The property of the amended claim C9: set_client_node_ip fails exactly
when std::stoi fails on the port substring; when stoi yields v, the call
succeeds and stores the unvalidated host parse result and v narrowed to
uint16, however malformed the endpoint was. -/
def clientNodeIpProp (m : AUHMetadata) (e : String) (v : Int) : Prop :=
  (stoiModel (portSub e) = Except.error () →
    m.set_client_node_ip e = Except.error ())
  ∧ (stoiModel (portSub e) = Except.ok v →
    m.set_client_node_ip e = Except.ok { m with
      client_node_host := inetAddrNtohlModel (hostSub e),
      client_node_port := (v % 65536).toNat })

/-- C9 amended: no operation of the core raises an exception or returns a
failure code except set_client_node_ip; there, host parsing is total and
unvalidated (garbage host values are stored), and for a missing colon or a
malformed host the call still proceeds as long as the port substring parses;
but a port substring on which std::stoi throws (no leading digits, or out of
int range) makes set_client_node_ip propagate that failure instead of storing
a garbage port. -/
theorem set_client_node_ip_failure_characterization (m : AUHMetadata) (e : String)
    (v : Int) : clientNodeIpProp m e v := by
  constructor <;> intro h <;> simp [AUHMetadata.set_client_node_ip, h]

/-- C9 amended witness: the characterization at the well-formed endpoint
"1.2.3.4:7", whose port substring parses to 7. -/
theorem set_client_node_ip_failure_characterization_witness :
    clientNodeIpProp {} "1.2.3.4:7" 7 :=
  set_client_node_ip_failure_characterization {} "1.2.3.4:7" 7

end YbUtil
